import Mathlib

/-!
Verification development for the moltbot-mini agent core: the conversation
store, the OpenAI tool-execution loop (`run` in `src/agents/openai-runner.ts`),
the Gmail tool dispatcher (`executeGmailTool` / `executeToolInternal` in
`src/agents/gmail-tools.execute.ts`) and the tool catalog
(`src/agents/gmail-tools.ts`), embedded shallowly.  External collaborators
(the OpenAI completion endpoint, the Gmail service, config loading) are
modelled as explicit parameters, exactly as the spec treats them: black boxes
behind the interfaces the loop consumes.
-/

set_option maxRecDepth 10000

/-! ## JavaScript runtime values

JSON-decodable JavaScript values.  Number literals are modelled as integers;
fractional and exponent forms are outside the scope of this development. -/

inductive JsValue where
  | undefined
  | null
  | bool (b : Bool)
  | num (n : Int)
  | str (s : String)
  | arr (elems : List JsValue)
  | obj (fields : List (String × JsValue))
deriving Inhabited

/-- Property access `v[k]` as the dispatcher uses it: objects yield the last
binding of the key (matching `JSON.parse` duplicate-key semantics, where later
keys overwrite earlier ones); every other value yields `undefined`. -/
def jsGetField (v : JsValue) (key : String) : JsValue :=
  match v with
  | .obj fields =>
    match fields.reverse.find? (fun p => p.1 = key) with
    | some p => p.2
    | none => .undefined
  | _ => .undefined

/-- JavaScript truthiness. -/
def jsTruthy : JsValue → Bool
  | .undefined => false
  | .null => false
  | .bool b => b
  | .num n => decide (n ≠ 0)
  | .str s => decide (s ≠ "")
  | .arr _ => true
  | .obj _ => true

/-- A JavaScript number that may be NaN. -/
inductive JsNum where
  | nan
  | int (n : Int)
deriving Repr, DecidableEq

/-- `Number(string)` restricted to optional-sign integer lexemes: surrounding
whitespace is trimmed, the empty string is 0, anything non-integral is NaN. -/
def strToNumber (s : String) : JsNum :=
  let t := s.trim
  if t = "" then .int 0
  else
    match t.toInt? with
    | some n => .int n
    | none => .nan

/-- JavaScript numeric coercion `Number(v)`.  Arrays and objects are coerced
to NaN here (a restriction: singleton arrays of numbers coerce numerically in
JavaScript, but no such value reaches a numeric position in this code). -/
def jsToNumber : JsValue → JsNum
  | .undefined => .nan
  | .null => .int 0
  | .bool b => .int (if b then 1 else 0)
  | .num n => .int n
  | .str s => strToNumber s
  | .arr _ => .nan
  | .obj _ => .nan

/-- `Math.min(a, b)` with an integer second operand. -/
def jsMin (a : JsNum) (b : Int) : JsNum :=
  match a with
  | .nan => .nan
  | .int n => .int (min n b)

/-- `Math.min((args.maxResults as number) || 10, 50)` from the
`gmail_list_messages` branch of `executeToolInternal`. -/
def computedMaxResults (v : JsValue) : JsNum :=
  jsMin (jsToNumber (if jsTruthy v then v else .num 10)) 50

/-! ### String coercion (template-literal interpolation) -/

mutual

/-- JavaScript `String(v)` as template literals apply it.  Object display is
the generic `[object Object]`. -/
def jsToDisplayString : JsValue → String
  | .undefined => "undefined"
  | .null => "null"
  | .bool true => "true"
  | .bool false => "false"
  | .num n => toString n
  | .str s => s
  | .arr xs => jsDisplayList xs
  | .obj _ => "[object Object]"

/-- `Array.prototype.join(',')`: elements comma-separated, with `null` and
`undefined` elements rendered as the empty string. -/
def jsDisplayList : List JsValue → String
  | [] => ""
  | [x] => jsDisplayElem x
  | x :: y :: rest => jsDisplayElem x ++ "," ++ jsDisplayList (y :: rest)

/-- One array element under `join`. -/
def jsDisplayElem : JsValue → String
  | .undefined => ""
  | .null => ""
  | v => jsToDisplayString v

end

/-! ## JSON.parse

A model of the JavaScript built-in `JSON.parse`, the arbiter of whether a
tool call's argument payload is valid structured data.  Strings support the
standard escapes; numbers follow the integer restriction noted above. -/

/-- Skip JSON whitespace. -/
def skipWs : List Char → List Char
  | c :: rest =>
    if c = ' ' ∨ c = '\t' ∨ c = '\n' ∨ c = '\r' then skipWs rest else c :: rest
  | [] => []

/-- Hexadecimal digit value. -/
def hexVal (c : Char) : Option Nat :=
  if '0' ≤ c ∧ c ≤ '9' then some (c.toNat - '0'.toNat)
  else if 'a' ≤ c ∧ c ≤ 'f' then some (c.toNat - 'a'.toNat + 10)
  else if 'A' ≤ c ∧ c ≤ 'F' then some (c.toNat - 'A'.toNat + 10)
  else none

/-- Parse the body of a JSON string literal (the opening quote already
consumed), returning the decoded string and the rest of the input. -/
def parseStringBody (fuel : Nat) (cs : List Char) (acc : List Char) :
    Option (String × List Char) :=
  match fuel with
  | 0 => none
  | fuel + 1 =>
    match cs with
    | [] => none
    | '"' :: rest => some (String.mk acc.reverse, rest)
    | '\\' :: esc :: rest =>
      match esc with
      | '"' => parseStringBody fuel rest ('"' :: acc)
      | '\\' => parseStringBody fuel rest ('\\' :: acc)
      | '/' => parseStringBody fuel rest ('/' :: acc)
      | 'b' => parseStringBody fuel rest ('\x08' :: acc)
      | 'f' => parseStringBody fuel rest ('\x0c' :: acc)
      | 'n' => parseStringBody fuel rest ('\n' :: acc)
      | 'r' => parseStringBody fuel rest ('\r' :: acc)
      | 't' => parseStringBody fuel rest ('\t' :: acc)
      | 'u' =>
        match rest with
        | h1 :: h2 :: h3 :: h4 :: rest2 =>
          match hexVal h1, hexVal h2, hexVal h3, hexVal h4 with
          | some a, some b, some c, some d =>
            let n := ((a * 16 + b) * 16 + c) * 16 + d
            if n.isValidChar then
              parseStringBody fuel rest2 (Char.ofNat n :: acc)
            else
              parseStringBody fuel rest2 ('�' :: acc)
          | _, _, _, _ => none
        | _ => none
      | _ => none
    | c :: rest =>
      if c.toNat < 0x20 then none else parseStringBody fuel rest (c :: acc)

/-- Parse an optional-sign integer literal. -/
def parseIntLit (cs : List Char) : Option (Int × List Char) :=
  let (neg, cs1) :=
    match cs with
    | '-' :: rest => (true, rest)
    | _ => (false, cs)
  let digits := cs1.takeWhile Char.isDigit
  let rest := cs1.dropWhile Char.isDigit
  if digits = [] then none
  else
    let n : Nat := digits.foldl (fun a c => a * 10 + (c.toNat - '0'.toNat)) 0
    some (if neg then -(n : Int) else (n : Int), rest)

mutual

/-- Parse one JSON value. -/
def parseJsonValue (fuel : Nat) (cs : List Char) : Option (JsValue × List Char) :=
  match fuel with
  | 0 => none
  | fuel + 1 =>
    match skipWs cs with
    | [] => none
    | 'n' :: 'u' :: 'l' :: 'l' :: rest => some (.null, rest)
    | 't' :: 'r' :: 'u' :: 'e' :: rest => some (.bool true, rest)
    | 'f' :: 'a' :: 'l' :: 's' :: 'e' :: rest => some (.bool false, rest)
    | '"' :: rest =>
      match parseStringBody (rest.length + 1) rest [] with
      | some (s, rest2) => some (.str s, rest2)
      | none => none
    | '[' :: rest =>
      match skipWs rest with
      | ']' :: rest2 => some (.arr [], rest2)
      | _ =>
        match parseJsonElems fuel rest with
        | some (elems, rest2) => some (.arr elems, rest2)
        | none => none
    | '{' :: rest =>
      match skipWs rest with
      | '}' :: rest2 => some (.obj [], rest2)
      | _ =>
        match parseJsonFields fuel rest with
        | some (fields, rest2) => some (.obj fields, rest2)
        | none => none
    | cs1 =>
      match parseIntLit cs1 with
      | some (n, rest) => some (.num n, rest)
      | none => none

/-- Parse the comma-separated elements of a JSON array, consuming the
closing bracket. -/
def parseJsonElems (fuel : Nat) (cs : List Char) : Option (List JsValue × List Char) :=
  match fuel with
  | 0 => none
  | fuel + 1 =>
    match parseJsonValue fuel cs with
    | none => none
    | some (v, rest) =>
      match skipWs rest with
      | ',' :: rest2 =>
        match parseJsonElems fuel rest2 with
        | some (vs, rest3) => some (v :: vs, rest3)
        | none => none
      | ']' :: rest2 => some ([v], rest2)
      | _ => none

/-- Parse the comma-separated members of a JSON object, consuming the
closing brace. -/
def parseJsonFields (fuel : Nat) (cs : List Char) :
    Option (List (String × JsValue) × List Char) :=
  match fuel with
  | 0 => none
  | fuel + 1 =>
    match skipWs cs with
    | '"' :: rest =>
      match parseStringBody (rest.length + 1) rest [] with
      | none => none
      | some (key, rest2) =>
        match skipWs rest2 with
        | ':' :: rest3 =>
          match parseJsonValue fuel rest3 with
          | none => none
          | some (v, rest4) =>
            match skipWs rest4 with
            | ',' :: rest5 =>
              match parseJsonFields fuel rest5 with
              | some (fs, rest6) => some ((key, v) :: fs, rest6)
              | none => none
            | '}' :: rest5 => some ([(key, v)], rest5)
            | _ => none
        | _ => none
    | _ => none

end

/-- `JSON.parse(s)`: `some` the decoded value on success, `none` when the
built-in would throw a `SyntaxError`. -/
def jsonParse (s : String) : Option JsValue :=
  let cs := s.toList
  match parseJsonValue (cs.length + 1) cs with
  | some (v, rest) => if skipWs rest = [] then some v else none
  | none => none

example : jsonParse "\x7b\x7d" = some (.obj []) := rfl
example : jsonParse "\x7b" = none := rfl
example : jsonParse " \x7b\"a\": [1, -2], \"b\": \"x\"\x7d " =
    some (.obj [("a", .arr [.num 1, .num (-2)]), ("b", .str "x")]) := rfl
example : jsonParse "" = none := rfl

/-! ## Gmail service interface (`src/gmail`)

The mail-service collaborator behind the dispatcher, exactly the surface
`executeToolInternal` consumes.  Each operation either returns a structured
result or throws; a thrown JavaScript value either is an `Error` carrying a
message or is not. -/

/-- A thrown JavaScript value, as the dispatcher's catch clause inspects it
(`error instanceof Error ? error.message : 'Unknown error'`). -/
inductive JsException where
  | error (message : String)
  | nonError
deriving Repr, DecidableEq

/-- The message the catch clause extracts from a thrown value. -/
def jsErrorMessage : JsException → String
  | .error m => m
  | .nonError => "Unknown error"

/-- A `Date`, carried by its locale-dependent renderings (the only way the
dispatcher consumes dates). -/
structure JsDate where
  localeDateString : String
  localeTimeString : String
  localeString : String
deriving Repr, DecidableEq

/-- `EmailMessage` from `src/channels/gmail/types.ts`. -/
structure EmailMessage where
  id : String
  threadId : String
  «from» : String
  «to» : List String
  cc : Option (List String) := none
  subject : String
  body : String
  bodyHtml : Option String := none
  date : JsDate
  labels : List String := []
  isUnread : Bool
  snippet : String
deriving Repr, DecidableEq

/-- Result of `gmail.listMessages`. -/
structure ListMessagesResult where
  messages : List EmailMessage
deriving Repr, DecidableEq

/-- Result of `gmail.sendMessage`. -/
structure SendResult where
  messageId : String
  threadId : String
deriving Repr, DecidableEq

/-- The `EmailDraft` the `gmail_send_message` branch assembles.  Every field
is the raw argument value: the TypeScript `as` casts are unchecked. -/
structure EmailDraft where
  «to» : JsValue
  subject : JsValue
  body : JsValue
  cc : JsValue
  inReplyTo : JsValue
  threadId : JsValue

/-- The Gmail service operations the dispatcher awaits.  Arguments that the
source passes through unchecked casts are raw `JsValue`s; `maxResults` has
been through numeric coercion. -/
structure GmailService where
  listMessages : JsValue → JsNum → Except JsException ListMessagesResult
  getMessage : JsValue → Except JsException EmailMessage
  sendMessage : EmailDraft → Except JsException SendResult
  archiveMessage : JsValue → Except JsException Unit
  trashMessage : JsValue → Except JsException Unit
  markAsRead : JsValue → Except JsException Unit
  markAsUnread : JsValue → Except JsException Unit
  getUnreadCount : Except JsException Int
  getThread : JsValue → Except JsException (List EmailMessage)

/-! ## Tool dispatcher (`src/agents/gmail-tools.execute.ts`) -/

/-- `ToolResult` from `src/agents/types.ts`. -/
structure ToolResult where
  success : Bool
  output : String
  error : Option String := none
deriving Repr, DecidableEq

/-- One numbered summary in the `gmail_list_messages` output. -/
def listSummary (i : Nat) (email : EmailMessage) : String :=
  let date := email.date.localeDateString
  let time := email.date.localeTimeString
  let unread := if email.isUnread then "[UNREAD] " else ""
  toString (i + 1) ++ ". " ++ unread ++ "From: " ++ email.«from» ++ "\n" ++
  "   Subject: " ++ email.subject ++ "\n" ++
  "   Date: " ++ date ++ " " ++ time ++ "\n" ++
  "   ID: " ++ email.id ++ "\n" ++
  "   Thread: " ++ email.threadId ++ "\n" ++
  "   Preview: " ++ (email.snippet.take 100) ++ "..."

/-- One formatted message in the `gmail_get_thread` output. -/
def threadEntry (total : Nat) (i : Nat) (email : EmailMessage) : String :=
  "--- Message " ++ toString (i + 1) ++ " of " ++ toString total ++ " ---\n" ++
  "From: " ++ email.«from» ++ "\n" ++
  "Date: " ++ email.date.localeString ++ "\n" ++
  (if email.isUnread then "[UNREAD]\n" else "") ++ "\n" ++
  email.body

/-- `executeToolInternal`: the switch over the nine known tool names, the
default case returning the `Unknown tool` text.  A thrown value from a
service operation propagates as the `Except` error. -/
def executeToolInternal (svc : GmailService) (toolName : String) (args : JsValue) :
    Except JsException String :=
  if toolName = "gmail_list_messages" then
    let query := jsGetField args "query"
    let maxResults := computedMaxResults (jsGetField args "maxResults")
    match svc.listMessages query maxResults with
    | .error e => .error e
    | .ok result =>
      if result.messages.length = 0 then
        .ok "No emails found matching your criteria."
      else
        let summaries := result.messages.enum.map (fun p => listSummary p.1 p.2)
        .ok ("Found " ++ toString result.messages.length ++ " emails:\n\n" ++
          String.intercalate "\n\n" summaries)
  else if toolName = "gmail_read_message" then
    let messageId := jsGetField args "messageId"
    match svc.getMessage messageId with
    | .error e => .error e
    | .ok email =>
      .ok ("From: " ++ email.«from» ++ "\n" ++
        "To: " ++ String.intercalate ", " email.«to» ++ "\n" ++
        (match email.cc with
         | some cc => if cc.length ≠ 0 then "Cc: " ++ String.intercalate ", " cc ++ "\n" else ""
         | none => "") ++
        "Subject: " ++ email.subject ++ "\n" ++
        "Date: " ++ email.date.localeString ++ "\n" ++
        "Status: " ++ (if email.isUnread then "Unread" else "Read") ++ "\n" ++
        "Message ID: " ++ email.id ++ "\n" ++
        "Thread ID: " ++ email.threadId ++ "\n" ++
        "\n--- Body ---\n" ++ email.body)
  else if toolName = "gmail_send_message" then
    let draft : EmailDraft := {
      «to» := jsGetField args "to"
      subject := jsGetField args "subject"
      body := jsGetField args "body"
      cc := jsGetField args "cc"
      inReplyTo := jsGetField args "replyToMessageId"
      threadId := jsGetField args "threadId" }
    match svc.sendMessage draft with
    | .error e => .error e
    | .ok result =>
      .ok ("Email sent successfully.\nMessage ID: " ++ result.messageId ++
        "\nThread ID: " ++ result.threadId)
  else if toolName = "gmail_archive_message" then
    let messageId := jsGetField args "messageId"
    match svc.archiveMessage messageId with
    | .error e => .error e
    | .ok _ =>
      .ok ("Email " ++ jsToDisplayString messageId ++ " has been archived (removed from inbox).")
  else if toolName = "gmail_trash_message" then
    let messageId := jsGetField args "messageId"
    match svc.trashMessage messageId with
    | .error e => .error e
    | .ok _ => .ok ("Email " ++ jsToDisplayString messageId ++ " has been moved to trash.")
  else if toolName = "gmail_mark_read" then
    let messageId := jsGetField args "messageId"
    match svc.markAsRead messageId with
    | .error e => .error e
    | .ok _ => .ok ("Email " ++ jsToDisplayString messageId ++ " marked as read.")
  else if toolName = "gmail_mark_unread" then
    let messageId := jsGetField args "messageId"
    match svc.markAsUnread messageId with
    | .error e => .error e
    | .ok _ => .ok ("Email " ++ jsToDisplayString messageId ++ " marked as unread.")
  else if toolName = "gmail_get_unread_count" then
    match svc.getUnreadCount with
    | .error e => .error e
    | .ok count =>
      .ok ("You have " ++ toString count ++ " unread email" ++
        (if count ≠ 1 then "s" else "") ++ " in your inbox.")
  else if toolName = "gmail_get_thread" then
    let threadId := jsGetField args "threadId"
    match svc.getThread threadId with
    | .error e => .error e
    | .ok messages =>
      if messages.length = 0 then
        .ok "Thread not found or contains no messages."
      else
        let formatted := messages.enum.map (fun p => threadEntry messages.length p.1 p.2)
        .ok ("Thread contains " ++ toString messages.length ++ " message" ++
          (if messages.length ≠ 1 then "s" else "") ++ ":\n\n" ++
          String.intercalate "\n\n" formatted)
  else
    .ok ("Unknown tool: " ++ toolName)

/-- `executeGmailTool`: the try/catch wrapper that makes every tool call
yield a `ToolResult`, converting a thrown value into the failure shape. -/
def executeGmailTool (svc : GmailService) (toolName : String) (args : JsValue) :
    ToolResult :=
  match executeToolInternal svc toolName args with
  | .ok output => { success := true, output := output }
  | .error e =>
    let message := jsErrorMessage e
    { success := false, output := "Error: " ++ message, error := some message }

/-! ## Tool catalog (`src/agents/gmail-tools.ts`) -/

/-- One named parameter in a tool's schema. -/
structure ToolParameter where
  name : String
  jsonType : String
  required : Bool
deriving Repr, DecidableEq

/-- One entry of the tool catalog: a function declaration passed to the
completion endpoint. -/
structure ToolDescriptor where
  name : String
  description : String
  parameters : List ToolParameter
deriving Repr, DecidableEq

/-- `GMAIL_TOOLS`: the fixed, ordered catalog of the nine Gmail tools. -/
def GMAIL_TOOLS : List ToolDescriptor := [
  { name := "gmail_list_messages"
    description := "List recent emails from inbox or search with a Gmail query. Returns email summaries with IDs."
    parameters := [
      { name := "query", jsonType := "string", required := false },
      { name := "maxResults", jsonType := "number", required := false }] },
  { name := "gmail_read_message"
    description := "Read the full content of a specific email by its message ID."
    parameters := [{ name := "messageId", jsonType := "string", required := true }] },
  { name := "gmail_send_message"
    description := "Send a new email or reply to an existing email thread."
    parameters := [
      { name := "to", jsonType := "array", required := true },
      { name := "subject", jsonType := "string", required := true },
      { name := "body", jsonType := "string", required := true },
      { name := "cc", jsonType := "array", required := false },
      { name := "replyToMessageId", jsonType := "string", required := false },
      { name := "threadId", jsonType := "string", required := false }] },
  { name := "gmail_archive_message"
    description := "Archive an email (remove from inbox but keep in All Mail)."
    parameters := [{ name := "messageId", jsonType := "string", required := true }] },
  { name := "gmail_trash_message"
    description := "Move an email to trash."
    parameters := [{ name := "messageId", jsonType := "string", required := true }] },
  { name := "gmail_mark_read"
    description := "Mark an email as read."
    parameters := [{ name := "messageId", jsonType := "string", required := true }] },
  { name := "gmail_mark_unread"
    description := "Mark an email as unread."
    parameters := [{ name := "messageId", jsonType := "string", required := true }] },
  { name := "gmail_get_unread_count"
    description := "Get the number of unread emails in the inbox."
    parameters := [] },
  { name := "gmail_get_thread"
    description := "Get all messages in an email thread/conversation."
    parameters := [{ name := "threadId", jsonType := "string", required := true }] }]

/-- `getToolByName`: exact-match catalog lookup. -/
def getToolByName (name : String) : Option ToolDescriptor :=
  GMAIL_TOOLS.find? (fun tool => tool.name = name)

/-- `getToolNames`: the catalog's names, in order. -/
def getToolNames : List String :=
  GMAIL_TOOLS.map (fun tool => tool.name)

/-! ## Agent loop (`src/agents/openai-runner.ts`)

The completion endpoint is modelled as the ordered list of outcomes of the
successive `client.chat.completions.create` calls: each entry either is the
response or is the transport error that call throws.  Conversation state is
passed explicitly; `RunExec.messages` is `conversationState.messages` at the
moment `run` returns or throws (a thrown error does not roll it back).
`Date` bookkeeping (`createdAt`/`updatedAt`) and the `console.log` tool trace
carry no information any property here depends on and are not modelled. -/

/-- Message roles. -/
inductive Role where
  | system
  | user
  | assistant
  | tool
deriving Repr, DecidableEq

/-- `tool_call.function`: the callee name and the JSON-encoded arguments. -/
structure ToolCallFunction where
  name : String
  arguments : String
deriving Repr, DecidableEq

/-- One tool call requested by the model. -/
structure ToolCall where
  id : String
  function : ToolCallFunction
deriving Repr, DecidableEq

/-- A conversation message (`ChatCompletionMessageParam`). -/
structure Message where
  role : Role
  content : Option String
  tool_calls : Option (List ToolCall) := none
  tool_call_id : Option String := none
deriving Repr, DecidableEq

/-- The message of a completion choice: optional text, optional tool calls. -/
structure AssistantMessage where
  content : Option String
  tool_calls : Option (List ToolCall) := none
deriving Repr, DecidableEq

/-- One choice of a completion response. -/
structure Choice where
  message : AssistantMessage
deriving Repr, DecidableEq

/-- A completion response: its choices and `usage?.total_tokens`. -/
structure CompletionResponse where
  choices : List Choice
  usage : Option Nat := none
deriving Repr, DecidableEq

/-- `response.choices[0]?.message`. -/
def topMessage (resp : CompletionResponse) : Option AssistantMessage :=
  resp.choices.head?.map (fun c => c.message)

/-- `RunOptions` from `src/agents/types.ts`. -/
structure RunOptions where
  reset : Bool := false
  maxTokens : Option Nat := none
  temperature : Option Int := none
deriving Repr, DecidableEq

/-- The configuration fields `run` reads (`config.openai.*`,
`config.agent.maxHistoryLength`, and the system prompt). -/
structure RunConfig where
  model : String
  maxTokens : Nat
  temperature : Int
  systemPrompt : String
  maxHistoryLength : Nat
deriving Repr, DecidableEq

/-- `RunResult` from `src/agents/types.ts`. -/
structure RunResult where
  response : String
  toolCalls : Nat
  tokensUsed : Option Nat := none
deriving Repr, DecidableEq

/-- The errors `run` can throw to its caller. -/
inductive RunError where
  /-- `createClient` threw: no API key configured. -/
  | missingApiKey
  /-- A `client.chat.completions.create` call threw (transport/auth). -/
  | transport (e : String)
  /-- `JSON.parse` threw a `SyntaxError` on this argument payload. -/
  | jsonParseFailure (arguments : String)
deriving Repr, DecidableEq

/-- How a `run` invocation ended.  `noMoreResponses` is a model artifact:
the finite response list was exhausted while the loop still awaited a
completion (the observation window closed with `run` still in flight). -/
inductive RunOutcome where
  | ok (result : RunResult)
  | thrown (e : RunError)
  | noMoreResponses
deriving Repr, DecidableEq

/-- One outbound completion request, as `run` assembles it. -/
structure ChatRequest where
  model : String
  maxTokens : Nat
  temperature : Int
  messages : List Message
  tools : List String
  toolChoice : String
deriving Repr, DecidableEq

/-- The observable execution of one `run` call: its outcome, the stored
conversation messages when it returned or threw, and the completion requests
it issued, in order. -/
structure RunExec where
  outcome : RunOutcome
  messages : List Message
  requests : List ChatRequest
deriving Repr, DecidableEq

/-- `a || b` on a possibly-absent number: `0` and `undefined` both fall
through to the default (`options.maxTokens || config.openai.maxTokens`). -/
def jsOrNat (a : Option Nat) (b : Nat) : Nat :=
  match a with
  | some n => if n = 0 then b else n
  | none => b

/-- `arr.slice(-m)`: the most recent `m` entries, except that `slice(-0)`
is `slice(0)` and keeps everything. -/
def sliceLast (msgs : List Message) (m : Nat) : List Message :=
  if m = 0 then msgs else msgs.drop (msgs.length - m)

/-- The trim step of `run` (lines 138–142): with `maxHistory` set to twice
the configured `maxHistoryLength`, drop the oldest messages whenever the
count exceeds it. -/
def trimHistory (maxHistoryLength : Nat) (msgs : List Message) : List Message :=
  let maxHistory := maxHistoryLength * 2
  if msgs.length > maxHistory then sliceLast msgs maxHistory else msgs

/-- Request assembly: the system prompt prepended to the stored history,
the full tool catalog, `tool_choice: 'auto'`, and the option-or-config
token/temperature parameters. -/
def mkRequest (cfg : RunConfig) (opts : RunOptions) (history : List Message) :
    ChatRequest :=
  { model := cfg.model
    maxTokens := jsOrNat opts.maxTokens cfg.maxTokens
    temperature := opts.temperature.getD cfg.temperature
    messages := { role := .system, content := some cfg.systemPrompt } :: history
    tools := getToolNames
    toolChoice := "auto" }

/-- The loop guard `assistantMessage?.tool_calls && assistantMessage.tool_calls.length > 0`,
read as the list of pending calls (empty when the guard is falsy). -/
def pendingCalls : Option AssistantMessage → List ToolCall
  | some am =>
    match am.tool_calls with
    | some calls => calls
    | none => []
  | none => []

/-- `assistantMessage.content` (only read under the guard, where the
message is present). -/
def assistantContent : Option AssistantMessage → Option String
  | some am => am.content
  | none => none

/-- `assistantMessage?.content || 'I was unable to generate a response.'`:
absent message, absent text and empty text all fall to the fallback. -/
def finalResponseOf (am? : Option AssistantMessage) : String :=
  match assistantContent am? with
  | some s => if s = "" then "I was unable to generate a response." else s
  | none => "I was unable to generate a response."

/-- The `for (const toolCall of assistantMessage.tool_calls)` body: parse the
arguments (`|| '{}'` first — an empty payload parses as the empty object),
count the call, execute it through the dispatcher, and collect the `tool`
message carrying the call's id.  A `JSON.parse` failure aborts the whole
batch: the already-collected results stay in the local array and never reach
the history. -/
def executeToolCalls (svc : GmailService) : List ToolCall →
    Except String (List Message × Nat)
  | [] => .ok ([], 0)
  | tc :: rest =>
    let raw := if tc.function.arguments = "" then "\x7b\x7d" else tc.function.arguments
    match jsonParse raw with
    | none => .error tc.function.arguments
    | some args =>
      let result := executeGmailTool svc tc.function.name args
      let msg : Message :=
        { role := .tool, content := some result.output, tool_call_id := some tc.id }
      match executeToolCalls svc rest with
      | .error e => .error e
      | .ok (msgs, k) => .ok (msg :: msgs, k + 1)

/-- Loop exit (lines 212–226): the final text is appended as an assistant
message and returned with the accumulated call count and the last response's
token usage. -/
def finishRun (history : List Message) (am? : Option AssistantMessage)
    (usage : Option Nat) (count : Nat) : RunExec :=
  let finalResponse := finalResponseOf am?
  { outcome := .ok { response := finalResponse, toolCalls := count, tokensUsed := usage }
    messages := history ++ [{ role := .assistant, content := some finalResponse }]
    requests := [] }

/-- The assistant message `run` pushes when the guard holds: the choice's
content together with its tool-call list. -/
def asstMsg (am? : Option AssistantMessage) (calls : List ToolCall) : Message :=
  { role := .assistant, content := assistantContent am?, tool_calls := some calls }

/-- The tool-execution loop (lines 163–210).  Each iteration appends the
assistant message with its calls, executes the batch, appends the tool
results, and issues the next completion request; the loop leaves when the
guard fails.  `oracle` is the list of outcomes of the remaining completion
calls. -/
def runLoop (cfg : RunConfig) (opts : RunOptions) (svc : GmailService) :
    List (Except String CompletionResponse) → List Message →
    Option AssistantMessage → Option Nat → Nat → RunExec
  | [], history, am?, usage, count =>
    match pendingCalls am? with
    | [] => finishRun history am? usage count
    | c :: cs =>
      let history1 := history ++ [asstMsg am? (c :: cs)]
      match executeToolCalls svc (c :: cs) with
      | .error bad =>
        { outcome := .thrown (.jsonParseFailure bad), messages := history1, requests := [] }
      | .ok (toolMsgs, _) =>
        let history2 := history1 ++ toolMsgs
        { outcome := .noMoreResponses, messages := history2
          requests := [mkRequest cfg opts history2] }
  | o :: rest, history, am?, usage, count =>
    match pendingCalls am? with
    | [] => finishRun history am? usage count
    | c :: cs =>
      let history1 := history ++ [asstMsg am? (c :: cs)]
      match executeToolCalls svc (c :: cs) with
      | .error bad =>
        { outcome := .thrown (.jsonParseFailure bad), messages := history1, requests := [] }
      | .ok (toolMsgs, k) =>
        let history2 := history1 ++ toolMsgs
        let req := mkRequest cfg opts history2
        match o with
        | .error e =>
          { outcome := .thrown (.transport e), messages := history2, requests := [req] }
        | .ok resp =>
          let next := runLoop cfg opts svc rest history2 (topMessage resp) resp.usage (count + k)
          { next with requests := req :: next.requests }

/-- `run`: reset if requested, create the client (throwing when no API key
is configured), append the user message, trim, and drive the loop.  `stored`
is the conversation state on entry; the first oracle entry is the initial
completion call's outcome. -/
def run (cfg : RunConfig) (apiKey : Option String) (svc : GmailService)
    (oracle : List (Except String CompletionResponse)) (stored : List Message)
    (userMessage : String) (opts : RunOptions) : RunExec :=
  let state0 := if opts.reset then [] else stored
  match apiKey with
  | none => { outcome := .thrown .missingApiKey, messages := state0, requests := [] }
  | some _ =>
    let state1 := state0 ++ [{ role := .user, content := some userMessage }]
    let state2 := trimHistory cfg.maxHistoryLength state1
    let req := mkRequest cfg opts state2
    match oracle with
    | [] => { outcome := .noMoreResponses, messages := state2, requests := [req] }
    | .error e :: _ =>
      { outcome := .thrown (.transport e), messages := state2, requests := [req] }
    | .ok resp :: rest =>
      let next := runLoop cfg opts svc rest state2 (topMessage resp) resp.usage 0
      { next with requests := req :: next.requests }

/-- `query`: single-turn entry point, forcing a reset. -/
def queryRun (cfg : RunConfig) (apiKey : Option String) (svc : GmailService)
    (oracle : List (Except String CompletionResponse)) (stored : List Message)
    (userMessage : String) (opts : RunOptions) : RunExec :=
  run cfg apiKey svc oracle stored userMessage { opts with reset := true }

/-! ## Conversation store under reference semantics

`conversationState` is a module-global object whose `messages` field holds a
JavaScript array — a heap reference.  To settle what
`getConversationState` (`return { ...conversationState }`) shares with the
live state, the store is modelled with the array heap explicit: `arrays` is
the heap (an index is an array reference), and the state object holds the
reference of its current `messages` array.  `push` writes through the
reference in place; `reset` and the trim assignment
(`messages = messages.slice(-maxHistory)`) install a freshly allocated
array. -/

namespace RefModel

/-- The `ConversationState` object: the `messages` field is an array
reference; timestamps are abstract instants. -/
structure ConversationStateObj where
  messagesRef : Nat
  createdAt : Nat
  updatedAt : Nat
deriving Repr, DecidableEq

/-- The module's mutable world: the array heap plus the current
`conversationState` object. -/
structure Store where
  arrays : List (List Message)
  state : ConversationStateObj
deriving Repr, DecidableEq

/-- Dereference an array: the message list a reference designates. -/
def readMessages (st : Store) (ref : Nat) : List Message :=
  st.arrays.getD ref []

/-- `getConversationState`: `{ ...conversationState }` copies the fields of
the live object — including the `messages` array reference — into a fresh
object. -/
def getConversationState (st : Store) : ConversationStateObj :=
  { messagesRef := st.state.messagesRef
    createdAt := st.state.createdAt
    updatedAt := st.state.updatedAt }

/-- `getConversationLength`. -/
def getConversationLength (st : Store) : Nat :=
  (readMessages st st.state.messagesRef).length

/-- `conversationState.messages.push(m)`: in-place append through the live
reference. -/
def pushMessage (st : Store) (m : Message) : Store :=
  { st with
    arrays := st.arrays.set st.state.messagesRef
      (readMessages st st.state.messagesRef ++ [m]) }

/-- `resetConversation`: a fresh state object with a freshly allocated empty
array. -/
def resetConversation (st : Store) (now : Nat) : Store :=
  { arrays := st.arrays ++ [[]]
    state := { messagesRef := st.arrays.length, createdAt := now, updatedAt := now } }

/-- The trim assignment of `run`: `slice` allocates a new array, and the
state object is repointed at it; the old array is untouched. -/
def trimStore (st : Store) (maxHistoryLength : Nat) : Store :=
  let maxHistory := maxHistoryLength * 2
  let current := readMessages st st.state.messagesRef
  if current.length > maxHistory then
    { arrays := st.arrays ++ [sliceLast current maxHistory]
      state := { st.state with messagesRef := st.arrays.length } }
  else st

end RefModel

/-! ## Concrete fixtures for closed evaluations -/

/-- A concrete Gmail service: three unread messages, everything else
succeeding trivially or failing with a named error. -/
def svcX : GmailService :=
  { listMessages := fun _ _ => .ok { messages := [] }
    getMessage := fun _ => .error (.error "Message not found")
    sendMessage := fun _ => .error (.error "Send failed")
    archiveMessage := fun _ => .ok ()
    trashMessage := fun _ => .ok ()
    markAsRead := fun _ => .ok ()
    markAsUnread := fun _ => .ok ()
    getUnreadCount := .ok 3
    getThread := fun _ => .ok [] }

/-- A concrete Gmail service whose unread-count operation throws. -/
def svcThrowing : GmailService :=
  { svcX with getUnreadCount := .error (.error "network down") }

/-- A concrete run configuration with a history bound of one turn. -/
def cfgX : RunConfig :=
  { model := "gpt-4o-mini"
    maxTokens := 1000
    temperature := 0
    systemPrompt := "You are a helpful email assistant."
    maxHistoryLength := 1 }

/-- A well-formed tool call for the unread-count tool. -/
def callUnread : ToolCall :=
  { id := "call_1", function := { name := "gmail_get_unread_count", arguments := "\x7b\x7d" } }

/-- A tool call whose argument payload is not valid JSON. -/
def callBadArgs : ToolCall :=
  { id := "call_2", function := { name := "gmail_get_unread_count", arguments := "\x7b" } }

/-- A completion response requesting the given tool calls. -/
def respCalling (calls : List ToolCall) : CompletionResponse :=
  { choices := [{ message := { content := none, tool_calls := some calls } }]
    usage := some 11 }

/-- A completion response answering with plain text. -/
def respText (s : String) : CompletionResponse :=
  { choices := [{ message := { content := some s, tool_calls := none } }]
    usage := some 29 }

/-- A concrete user message. -/
def mUser : Message := { role := .user, content := some "hello" }

/-- A three-message history for trim instances. -/
def msgs3 : List Message := [mUser, mUser, mUser]

/-- The assistant message requesting the unread-count call. -/
def amCalling : AssistantMessage := { content := none, tool_calls := some [callUnread] }

/-- The tool message the unread-count call produces against `svcX`. -/
def toolMsgUnread : Message :=
  { role := .tool, content := some "You have 3 unread emails in your inbox."
    tool_call_id := some "call_1" }

/-- A store with one (empty) conversation array. -/
def storeX : RefModel.Store :=
  { arrays := [[]], state := { messagesRef := 0, createdAt := 0, updatedAt := 0 } }

/-- A response oracle: one tool round, then a final text answer. -/
def oracleX : List (Except String CompletionResponse) :=
  [.ok (respCalling [callUnread]), .ok (respText "You have 3 unread emails.")]

/-- The assistant message of a plain text response. -/
def amText : AssistantMessage :=
  { content := some "You have 3 unread emails.", tool_calls := none }

/-! ## Helper lemmas -/

/-- Sanity of the `JSON.parse` model on closed inputs. -/
lemma jsonParse_closed_cases :
    jsonParse "\x7b\x7d" = some (.obj []) ∧
    jsonParse "\x7b" = none ∧
    jsonParse " \x7b\"a\": [1, -2], \"b\": \"x\"\x7d " =
      some (.obj [("a", .arr [.num 1, .num (-2)]), ("b", .str "x")]) ∧
    jsonParse "" = none :=
  ⟨rfl, rfl, rfl, rfl⟩

/-- A successful tool batch: one `tool` message per call, ids aligned
positionally, all roles `tool`, and the count equal to the batch size. -/
lemma executeToolCalls_ok (svc : GmailService) :
    ∀ (calls : List ToolCall) (toolMsgs : List Message) (k : Nat),
      executeToolCalls svc calls = .ok (toolMsgs, k) →
      toolMsgs.length = calls.length ∧ k = calls.length ∧
      toolMsgs.map (fun m => m.tool_call_id) = calls.map (fun c => some c.id) ∧
      ∀ m ∈ toolMsgs, m.role = .tool := by
  intro calls
  induction calls with
  | nil =>
    intro toolMsgs k h
    simp only [executeToolCalls] at h
    cases h
    simp
  | cons tc rest ih =>
    intro toolMsgs k h
    simp only [executeToolCalls] at h
    cases hjp : jsonParse (if tc.function.arguments = "" then "\x7b\x7d" else tc.function.arguments) with
    | none => rw [hjp] at h; cases h
    | some args =>
      rw [hjp] at h
      cases hrec : executeToolCalls svc rest with
      | error e => rw [hrec] at h; cases h
      | ok p =>
        obtain ⟨msgs, k'⟩ := p
        rw [hrec] at h
        cases h
        obtain ⟨hlen, hk, hmap, hrole⟩ := ih msgs k' hrec
        refine ⟨by simp [hlen], by simp [hk], by simp [hmap], ?_⟩
        intro m hm
        rcases List.mem_cons.mp hm with hm | hm
        · subst hm; rfl
        · exact hrole m hm

/-- The loop never shrinks the history: whatever the oracle does, the
messages on exit extend the messages on entry. -/
lemma runLoop_messages_extend (cfg : RunConfig) (opts : RunOptions) (svc : GmailService) :
    ∀ (oracle : List (Except String CompletionResponse)) (history : List Message)
      (am? : Option AssistantMessage) (usage : Option Nat) (count : Nat),
      ∃ ext, (runLoop cfg opts svc oracle history am? usage count).messages = history ++ ext := by
  intro oracle
  induction oracle with
  | nil =>
    intro history am? usage count
    simp only [runLoop]
    cases hpc : pendingCalls am? with
    | nil => exact ⟨_, rfl⟩
    | cons c cs =>
      cases hex : executeToolCalls svc (c :: cs) with
      | error bad => simp only [hex]; exact ⟨_, rfl⟩
      | ok p =>
        obtain ⟨toolMsgs, k⟩ := p
        simp only [hex]
        exact ⟨[asstMsg am? (c :: cs)] ++ toolMsgs, by simp⟩
  | cons o rest ih =>
    intro history am? usage count
    simp only [runLoop]
    cases hpc : pendingCalls am? with
    | nil => exact ⟨_, rfl⟩
    | cons c cs =>
      cases hex : executeToolCalls svc (c :: cs) with
      | error bad => simp only [hex]; exact ⟨_, rfl⟩
      | ok p =>
        obtain ⟨toolMsgs, k⟩ := p
        simp only [hex]
        cases o with
        | error e =>
          exact ⟨[asstMsg am? (c :: cs)] ++ toolMsgs, by simp⟩
        | ok resp =>
          obtain ⟨ext, hext⟩ :=
            ih (history ++ [asstMsg am? (c :: cs)] ++ toolMsgs) (topMessage resp)
              resp.usage (count + k)
          exact ⟨[asstMsg am? (c :: cs)] ++ toolMsgs ++ ext, by simp only [hext]; simp⟩

/-- The dispatcher's switch labels are exactly the catalog's names. -/
lemma dispatch_names_match_catalog :
    getToolNames = ["gmail_list_messages", "gmail_read_message", "gmail_send_message",
      "gmail_archive_message", "gmail_trash_message", "gmail_mark_read",
      "gmail_mark_unread", "gmail_get_unread_count", "gmail_get_thread"] := rfl

/-- An updated slot reads back the written value. -/
lemma getD_set_self {α : Type _} (l : List α) (i : Nat) (a d : α) (h : i < l.length) :
    (l.set i a).getD i d = a := by
  rw [List.getD_eq_getElem?_getD, List.getElem?_set_eq_of_lt a h]
  rfl

/-! ## Claims -/

/-- C3: for every history and every `maxTurns ≥ 1`, the trim step of `run`
keeps the history unchanged when its length is at most `2 × maxTurns`, and
otherwise keeps exactly the most recent `2 × maxTurns` messages in order;
the result's length is at most `2 × maxTurns` and is a suffix of the
pre-trim history. -/
theorem trim_keeps_recent_suffix (msgs : List Message) (maxTurns : Nat)
    (h1 : 1 ≤ maxTurns) :
    (msgs.length ≤ 2 * maxTurns → trimHistory maxTurns msgs = msgs) ∧
    (msgs.length > 2 * maxTurns →
      trimHistory maxTurns msgs = msgs.drop (msgs.length - 2 * maxTurns)) ∧
    (trimHistory maxTurns msgs).length ≤ 2 * maxTurns ∧
    ∃ dropped, dropped ++ trimHistory maxTurns msgs = msgs := by
  have hcomm : maxTurns * 2 = 2 * maxTurns := Nat.mul_comm _ _
  by_cases hlen : msgs.length > maxTurns * 2
  · have htrim : trimHistory maxTurns msgs = msgs.drop (msgs.length - 2 * maxTurns) := by
      unfold trimHistory sliceLast
      rw [if_pos hlen, if_neg (by omega), hcomm]
    refine ⟨fun hle => by omega, fun _ => htrim, ?_, ?_⟩
    · rw [htrim, List.length_drop]; omega
    · exact ⟨msgs.take (msgs.length - 2 * maxTurns), by rw [htrim, List.take_append_drop]⟩
  · have htrim : trimHistory maxTurns msgs = msgs := by
      unfold trimHistory
      rw [if_neg hlen]
    refine ⟨fun _ => htrim, fun hgt => by omega, ?_, ⟨[], by rw [htrim]; rfl⟩⟩
    rw [htrim]; omega

/-- C3 witness: at `maxTurns = 1` a three-message history is clipped to its
two most recent entries. -/
theorem trim_keeps_recent_suffix_witness :
    1 ≤ 1 ∧
    ((msgs3.length ≤ 2 * 1 → trimHistory 1 msgs3 = msgs3) ∧
     (msgs3.length > 2 * 1 →
       trimHistory 1 msgs3 = msgs3.drop (msgs3.length - 2 * 1)) ∧
     (trimHistory 1 msgs3).length ≤ 2 * 1 ∧
     ∃ dropped, dropped ++ trimHistory 1 msgs3 = msgs3) :=
  ⟨by decide, trim_keeps_recent_suffix msgs3 1 (by decide)⟩

/-- C1: a successful tool batch of `N ≥ 1` calls appends exactly `N` tool
messages, in call order, the i-th carrying the i-th call's id, every one with
role `tool` (so none without a matching pending call); and the next
completion request the loop issues carries exactly the history extended by
the assistant message and those `N` tool messages. -/
theorem tool_messages_match_calls (svc : GmailService) (calls : List ToolCall)
    (toolMsgs : List Message) (k : Nat)
    (hok : executeToolCalls svc calls = .ok (toolMsgs, k)) :
    toolMsgs.length = calls.length ∧
    toolMsgs.map (fun m => m.tool_call_id) = calls.map (fun c => some c.id) ∧
    (∀ m ∈ toolMsgs, m.role = .tool) ∧
    ∀ (cfg : RunConfig) (opts : RunOptions)
      (oracle : List (Except String CompletionResponse)) (history : List Message)
      (am : AssistantMessage) (usage : Option Nat) (count : Nat),
      am.tool_calls = some calls → calls ≠ [] →
      (runLoop cfg opts svc oracle history (some am) usage count).requests.head? =
        some (mkRequest cfg opts (history ++ [asstMsg (some am) calls] ++ toolMsgs)) := by
  obtain ⟨hlen, hk, hmap, hrole⟩ := executeToolCalls_ok svc calls toolMsgs k hok
  refine ⟨hlen, hmap, hrole, ?_⟩
  intro cfg opts oracle history am usage count htc hne
  obtain ⟨c, cs, rfl⟩ : ∃ c cs, calls = c :: cs := by
    cases calls with
    | nil => exact absurd rfl hne
    | cons c cs => exact ⟨c, cs, rfl⟩
  have hpc : pendingCalls (some am) = c :: cs := by simp [pendingCalls, htc]
  cases oracle with
  | nil => simp only [runLoop, hpc, hok]; rfl
  | cons o rest =>
    cases o with
    | error e => simp only [runLoop, hpc, hok]; rfl
    | ok resp => simp only [runLoop, hpc, hok]; rfl

/-- C1 witness: the single unread-count call against `svcX` produces one
matching tool message, and the loop's next request carries it. -/
theorem tool_messages_match_calls_witness :
    executeToolCalls svcX [callUnread] = .ok ([toolMsgUnread], 1) ∧
    amCalling.tool_calls = some [callUnread] ∧
    ([callUnread] : List ToolCall) ≠ [] ∧
    [toolMsgUnread].length = [callUnread].length ∧
    [toolMsgUnread].map (fun m => m.tool_call_id) = [callUnread].map (fun c => some c.id) ∧
    (∀ m ∈ [toolMsgUnread], m.role = .tool) ∧
    (runLoop cfgX {} svcX [] [] (some amCalling) none 0).requests.head? =
      some (mkRequest cfgX {} ([] ++ [asstMsg (some amCalling) [callUnread]] ++ [toolMsgUnread])) := by
  have h := tool_messages_match_calls svcX [callUnread] [toolMsgUnread] 1 rfl
  exact ⟨rfl, rfl, by decide, h.1, h.2.1, h.2.2.1,
    h.2.2.2 cfgX {} [] [] amCalling none 0 rfl (by decide)⟩

/-- C2: when the current top-choice message has an empty or absent tool-call
list, the loop issues no further completion request, appends exactly one
assistant message, and returns its text — or the fallback sentence when the
text is empty or absent — with the accumulated tool-call count. -/
theorem loop_exit_no_tool_calls (cfg : RunConfig) (opts : RunOptions) (svc : GmailService)
    (oracle : List (Except String CompletionResponse)) (history : List Message)
    (am? : Option AssistantMessage) (usage : Option Nat) (count : Nat)
    (h : pendingCalls am? = []) :
    ∃ r : String,
      runLoop cfg opts svc oracle history am? usage count =
        { outcome := .ok { response := r, toolCalls := count, tokensUsed := usage }
          messages := history ++ [{ role := .assistant, content := some r }]
          requests := [] } ∧
      ((∃ am s, am? = some am ∧ am.content = some s ∧ s ≠ "" ∧ r = s) ∨
       (r = "I was unable to generate a response." ∧
        (am? = none ∨ ∃ am, am? = some am ∧ (am.content = none ∨ am.content = some "")))) := by
  refine ⟨finalResponseOf am?, ?_, ?_⟩
  · cases oracle with
    | nil => simp only [runLoop, h]; rfl
    | cons o rest => simp only [runLoop, h]; rfl
  · cases am? with
    | none => right; exact ⟨rfl, Or.inl rfl⟩
    | some am =>
      cases hc : am.content with
      | none =>
        right
        exact ⟨by simp [finalResponseOf, assistantContent, hc], Or.inr ⟨am, rfl, Or.inl hc⟩⟩
      | some s =>
        by_cases hs : s = ""
        · subst hs
          right
          exact ⟨by simp [finalResponseOf, assistantContent, hc], Or.inr ⟨am, rfl, Or.inr hc⟩⟩
        · left
          exact ⟨am, s, rfl, hc, hs, by simp [finalResponseOf, assistantContent, hc, hs]⟩

/-- C2 witness: a text-only response ends the loop at once with its text,
the accumulated count, and no further request. -/
theorem loop_exit_no_tool_calls_witness :
    pendingCalls (some amText) = [] ∧
    (∃ r : String,
      runLoop cfgX {} svcX [] [] (some amText) (some 29) 1 =
        { outcome := .ok { response := r, toolCalls := 1, tokensUsed := some 29 }
          messages := [] ++ [{ role := .assistant, content := some r }]
          requests := [] } ∧
      ((∃ am s, some amText = some am ∧ am.content = some s ∧ s ≠ "" ∧ r = s) ∨
       (r = "I was unable to generate a response." ∧
        (some amText = none ∨
          ∃ am, some amText = some am ∧ (am.content = none ∨ am.content = some ""))))) :=
  ⟨rfl, loop_exit_no_tool_calls cfgX {} svcX [] [] (some amText) (some 29) 1 rfl⟩

/-- C4 counterexample: an unknown tool name yields a ToolResult with
`success := true` — the `Unknown tool` text comes back through the normal
return path of the switch's default case, not through the catch clause — so
the claimed `{success: false, output: "Unknown tool: <name>"}` is not what
the dispatcher returns. -/
theorem unknown_tool_success_true :
    executeGmailTool svcX "not_a_tool" (.obj []) =
      { success := true, output := "Unknown tool: not_a_tool", error := none } ∧
    (executeGmailTool svcX "not_a_tool" (.obj [])).success ≠ false := by
  constructor
  · rfl
  · decide

/-- C4 amended: for every tool name outside the nine known Gmail tool
identifiers and every argument value, the dispatcher returns
`{success: true, output: "Unknown tool: <name>"}` (no exception is raised —
the result is an ordinary ToolResult). -/
theorem unknown_tool_result (svc : GmailService) (name : String) (args : JsValue)
    (h : name ∉ getToolNames) :
    executeGmailTool svc name args =
      { success := true, output := "Unknown tool: " ++ name, error := none } := by
  rw [dispatch_names_match_catalog] at h
  simp only [List.mem_cons, List.not_mem_nil, or_false, not_or] at h
  obtain ⟨h1, h2, h3, h4, h5, h6, h7, h8, h9⟩ := h
  simp [executeGmailTool, executeToolInternal, h1, h2, h3, h4, h5, h6, h7, h8, h9]

/-- C4 witness for the amended claim: a concrete unknown name. -/
theorem unknown_tool_result_witness :
    "gmail_delete_account" ∉ getToolNames ∧
    executeGmailTool svcX "gmail_delete_account" (.obj []) =
      { success := true, output := "Unknown tool: gmail_delete_account", error := none } :=
  ⟨by decide, unknown_tool_result svcX "gmail_delete_account" (.obj []) (by decide)⟩

/-- C5: the code crashes on malformed tool arguments instead of reporting a
failed ToolResult.  `JSON.parse` runs inside `run`'s loop, outside the
dispatcher's try/catch: on a payload of a single opening brace the
SyntaxError propagates out
of `run`, no tool message is appended, and the history ends with the
assistant message whose call is left unanswered. -/
theorem malformed_args_crash_run :
    (run cfgX (some "key") svcX [.ok (respCalling [callBadArgs])] [] "hi" {}).outcome =
      .thrown (.jsonParseFailure "\x7b") ∧
    (run cfgX (some "key") svcX [.ok (respCalling [callBadArgs])] [] "hi" {}).messages =
      [{ role := .user, content := some "hi" },
       { role := .assistant, content := none, tool_calls := some [callBadArgs] }] ∧
    ((run cfgX (some "key") svcX [.ok (respCalling [callBadArgs])] [] "hi" {}).messages.filter
      (fun m => m.role = .tool)).length = 0 := by
  refine ⟨rfl, rfl, rfl⟩

/-- C6: the dispatcher is total — every input yields a ToolResult, either the
success shape with no error field, or the failure shape `Error: <m>` with
`error = m`; and a thrown `Error` with message `m` is converted to exactly
`{success: false, output: "Error: <m>", error: m}`. -/
theorem dispatcher_total :
    (∀ (svc : GmailService) (name : String) (args : JsValue),
      (∃ out, executeGmailTool svc name args = { success := true, output := out, error := none }) ∨
      (∃ m, executeGmailTool svc name args =
        { success := false, output := "Error: " ++ m, error := some m })) ∧
    (∀ (svc : GmailService) (name : String) (args : JsValue) (m : String),
      executeToolInternal svc name args = .error (.error m) →
      executeGmailTool svc name args =
        { success := false, output := "Error: " ++ m, error := some m }) := by
  constructor
  · intro svc name args
    cases hi : executeToolInternal svc name args with
    | ok out => left; exact ⟨out, by simp [executeGmailTool, hi]⟩
    | error e => right; exact ⟨jsErrorMessage e, by simp [executeGmailTool, hi]⟩
  · intro svc name args m hi
    simp [executeGmailTool, hi, jsErrorMessage]

/-- C6 witness: a service whose unread-count operation throws an `Error`
with message `network down` produces exactly the converted failure. -/
theorem dispatcher_total_witness :
    executeToolInternal svcThrowing "gmail_get_unread_count" (.obj []) =
      .error (.error "network down") ∧
    executeGmailTool svcThrowing "gmail_get_unread_count" (.obj []) =
      { success := false, output := "Error: network down", error := some "network down" } :=
  ⟨rfl, dispatcher_total.2 svcThrowing "gmail_get_unread_count" (.obj []) "network down" rfl⟩

/-- C8: when the service reports `n` unread messages, the unread-count tool
returns success with the sentence pluralized exactly when `n ≠ 1`; at
`n = 3` the output is exactly `You have 3 unread emails in your inbox.`. -/
theorem unread_count_output (svc : GmailService) (n : Int) (args : JsValue)
    (h : svc.getUnreadCount = .ok n) :
    executeGmailTool svc "gmail_get_unread_count" args =
      { success := true
        output := "You have " ++ toString n ++
          (if n = 1 then " unread email in your inbox." else " unread emails in your inbox.")
        error := none } ∧
    (n = 3 → (executeGmailTool svc "gmail_get_unread_count" args).output =
      "You have 3 unread emails in your inbox.") := by
  have hmain : executeGmailTool svc "gmail_get_unread_count" args =
      { success := true
        output := "You have " ++ toString n ++
          (if n = 1 then " unread email in your inbox." else " unread emails in your inbox.")
        error := none } := by
    by_cases hn : n = 1
    · simp [executeGmailTool, executeToolInternal, h, hn, String.append_assoc]
      try rfl
    · simp [executeGmailTool, executeToolInternal, h, hn, String.append_assoc]
      try rfl
  refine ⟨hmain, fun h3 => ?_⟩
  subst h3
  rw [hmain]
  rfl

/-- C8 witness: `svcX` reports three unread messages and the output is the
exact expected sentence. -/
theorem unread_count_output_witness :
    svcX.getUnreadCount = .ok 3 ∧
    (executeGmailTool svcX "gmail_get_unread_count" (.obj [])).output =
      "You have 3 unread emails in your inbox." :=
  ⟨rfl, (unread_count_output svcX 3 (.obj []) rfl).2 rfl⟩

/-- C7: a failing completion call propagates uncaught: `run`'s outcome is
the thrown transport error, exactly one request was issued for that call (no
retry, no catch), and every message appended before the failure — the user
message on the first call, and the assistant and tool messages of completed
rounds on later calls — remains in the history. -/
theorem transport_error_propagates :
    (∀ (cfg : RunConfig) (key : String) (svc : GmailService) (e : String)
       (tail : List (Except String CompletionResponse)) (stored : List Message)
       (userMessage : String) (opts : RunOptions),
      run cfg (some key) svc (.error e :: tail) stored userMessage opts =
        { outcome := .thrown (.transport e)
          messages := trimHistory cfg.maxHistoryLength
            ((if opts.reset then [] else stored) ++
              [{ role := .user, content := some userMessage }])
          requests := [mkRequest cfg opts (trimHistory cfg.maxHistoryLength
            ((if opts.reset then [] else stored) ++
              [{ role := .user, content := some userMessage }]))] }) ∧
    (∀ (cfg : RunConfig) (opts : RunOptions) (svc : GmailService) (e : String)
       (tail : List (Except String CompletionResponse)) (history : List Message)
       (am : AssistantMessage) (calls : List ToolCall) (toolMsgs : List Message)
       (k : Nat) (usage : Option Nat) (count : Nat),
      am.tool_calls = some calls → calls ≠ [] →
      executeToolCalls svc calls = .ok (toolMsgs, k) →
      runLoop cfg opts svc (.error e :: tail) history (some am) usage count =
        { outcome := .thrown (.transport e)
          messages := history ++ [asstMsg (some am) calls] ++ toolMsgs
          requests := [mkRequest cfg opts
            (history ++ [asstMsg (some am) calls] ++ toolMsgs)] }) := by
  constructor
  · intro cfg key svc e tail stored userMessage opts
    rfl
  · intro cfg opts svc e tail history am calls toolMsgs k usage count htc hne hok
    obtain ⟨c, cs, rfl⟩ : ∃ c cs, calls = c :: cs := by
      cases calls with
      | nil => exact absurd rfl hne
      | cons c cs => exact ⟨c, cs, rfl⟩
    have hpc : pendingCalls (some am) = c :: cs := by simp [pendingCalls, htc]
    simp only [runLoop, hpc, hok]

/-- C7 witness: a first-call failure retains the freshly appended user
message; a second-call failure retains the completed round's assistant and
tool messages. -/
theorem transport_error_propagates_witness :
    run cfgX (some "key") svcX [.error "ECONNRESET"] [] "hi" {} =
      { outcome := .thrown (.transport "ECONNRESET")
        messages := trimHistory cfgX.maxHistoryLength
          ((if ({} : RunOptions).reset then [] else []) ++
            [{ role := .user, content := some "hi" }])
        requests := [mkRequest cfgX {} (trimHistory cfgX.maxHistoryLength
          ((if ({} : RunOptions).reset then [] else []) ++
            [{ role := .user, content := some "hi" }]))] } ∧
    amCalling.tool_calls = some [callUnread] ∧
    ([callUnread] : List ToolCall) ≠ [] ∧
    executeToolCalls svcX [callUnread] = .ok ([toolMsgUnread], 1) ∧
    runLoop cfgX {} svcX [.error "boom"] [] (some amCalling) (some 11) 0 =
      { outcome := .thrown (.transport "boom")
        messages := [] ++ [asstMsg (some amCalling) [callUnread]] ++ [toolMsgUnread]
        requests := [mkRequest cfgX {}
          ([] ++ [asstMsg (some amCalling) [callUnread]] ++ [toolMsgUnread])] } :=
  ⟨transport_error_propagates.1 cfgX "key" svcX "ECONNRESET" [] [] "hi" {},
   rfl, by decide, rfl,
   transport_error_propagates.2 cfgX {} svcX "boom" [] [] amCalling [callUnread]
     [toolMsgUnread] 1 (some 11) 0 rfl (by decide) rfl⟩

/-- C9 counterexample: the snapshot returned before an append sees the
appended message afterwards — `{ ...conversationState }` copies the array
reference, not the array — so a store mutation does change a previously
returned snapshot, contrary to the claim. -/
theorem snapshot_sees_later_append :
    (RefModel.getConversationState storeX).messagesRef = storeX.state.messagesRef ∧
    RefModel.readMessages storeX (RefModel.getConversationState storeX).messagesRef = [] ∧
    RefModel.readMessages (RefModel.pushMessage storeX mUser)
      (RefModel.getConversationState storeX).messagesRef = [mUser] :=
  ⟨rfl, rfl, rfl⟩

/-- C9 amended: `getConversationState` returns a shallow copy — a fresh
state record whose `messages` field is the same live array reference — so a
`push` through the store is visible through a previously returned snapshot
(and vice versa), while `reset` and the trim assignment, which install a
freshly allocated array, leave what a prior snapshot reads unchanged. -/
theorem snapshot_shallow_copy (st : RefModel.Store) (m : Message) (now k : Nat)
    (h : st.state.messagesRef < st.arrays.length) :
    (RefModel.getConversationState st).messagesRef = st.state.messagesRef ∧
    RefModel.readMessages (RefModel.pushMessage st m)
        (RefModel.getConversationState st).messagesRef =
      RefModel.readMessages st st.state.messagesRef ++ [m] ∧
    RefModel.readMessages (RefModel.resetConversation st now)
        (RefModel.getConversationState st).messagesRef =
      RefModel.readMessages st st.state.messagesRef ∧
    RefModel.readMessages (RefModel.trimStore st k)
        (RefModel.getConversationState st).messagesRef =
      RefModel.readMessages st st.state.messagesRef := by
  refine ⟨rfl, ?_, ?_, ?_⟩
  · show (st.arrays.set st.state.messagesRef
        (RefModel.readMessages st st.state.messagesRef ++ [m])).getD st.state.messagesRef [] =
      RefModel.readMessages st st.state.messagesRef ++ [m]
    exact getD_set_self _ _ _ _ h
  · show (st.arrays ++ [[]]).getD st.state.messagesRef [] =
      RefModel.readMessages st st.state.messagesRef
    exact List.getD_append _ _ _ _ h
  · unfold RefModel.trimStore
    by_cases hlen :
        (RefModel.readMessages st st.state.messagesRef).length > k * 2
    · rw [if_pos hlen]
      exact List.getD_append _ _ _ _ h
    · rw [if_neg hlen]
      rfl

/-- C9 amended witness: the concrete one-array store. -/
theorem snapshot_shallow_copy_witness :
    storeX.state.messagesRef < storeX.arrays.length ∧
    ((RefModel.getConversationState storeX).messagesRef = storeX.state.messagesRef ∧
     RefModel.readMessages (RefModel.pushMessage storeX mUser)
         (RefModel.getConversationState storeX).messagesRef =
       RefModel.readMessages storeX storeX.state.messagesRef ++ [mUser] ∧
     RefModel.readMessages (RefModel.resetConversation storeX 7)
         (RefModel.getConversationState storeX).messagesRef =
       RefModel.readMessages storeX storeX.state.messagesRef ∧
     RefModel.readMessages (RefModel.trimStore storeX 1)
         (RefModel.getConversationState storeX).messagesRef =
       RefModel.readMessages storeX storeX.state.messagesRef) :=
  ⟨by decide, snapshot_shallow_copy storeX mUser 7 1 (by decide)⟩

/-- C10: the history bound is applied exactly once per `run` invocation —
on the stored history with the new user message, before the first
completion request; the loop and the final reply only ever append (never
trim), so the stored length at return can exceed `2 × maxHistoryLength`,
as the concrete one-round run shows (4 messages against a bound of 2). -/
theorem trim_once_loop_appends :
    (∀ (cfg : RunConfig) (opts : RunOptions) (svc : GmailService)
       (oracle : List (Except String CompletionResponse)) (history : List Message)
       (am? : Option AssistantMessage) (usage : Option Nat) (count : Nat),
      ∃ ext, (runLoop cfg opts svc oracle history am? usage count).messages =
        history ++ ext) ∧
    (∀ (cfg : RunConfig) (key : String) (svc : GmailService)
       (oracle : List (Except String CompletionResponse)) (stored : List Message)
       (userMessage : String) (opts : RunOptions),
      ∃ ext, (run cfg (some key) svc oracle stored userMessage opts).messages =
        trimHistory cfg.maxHistoryLength
          ((if opts.reset then [] else stored) ++
            [{ role := .user, content := some userMessage }]) ++ ext) ∧
    ((run cfgX (some "key") svcX oracleX [] "How many unread emails do I have?" {}).messages.length
        = 4 ∧
     4 > 2 * cfgX.maxHistoryLength) := by
  refine ⟨runLoop_messages_extend, ?_, rfl, by decide⟩
  intro cfg key svc oracle stored userMessage opts
  cases oracle with
  | nil => exact ⟨[], by simp [run]⟩
  | cons o rest =>
    cases o with
    | error e => exact ⟨[], by simp [run]⟩
    | ok resp =>
      obtain ⟨ext, hext⟩ := runLoop_messages_extend cfg opts svc rest
        (trimHistory cfg.maxHistoryLength
          ((if opts.reset then [] else stored) ++
            [{ role := .user, content := some userMessage }]))
        (topMessage resp) resp.usage 0
      exact ⟨ext, by simp only [run]; exact hext⟩
